import Mathlib

/-!
Verification of the oneview-golang fragment: the `ov` server-profile
operations (`GetProfiles`, `GetProfileByName`, `GetProfileBySN`,
`SubmitNewProfile`, `CreateProfileFromTemplate`, `SubmitDeleteProfile`,
`DeleteProfile`, `ServerProfile.Clone`) and the example programs
(`examples/scope.go`, `examples/fc_config.go`, the scope/ethernet demo).

The Go code is embedded shallowly: every function becomes a pure Lean
function over an explicit environment (`ProfileEnv`, `ScopeEnv`) that
supplies the outcomes of the external collaborators the code calls
(REST transport, JSON unmarshalling, the `Task.Wait` polling primitive,
the SDK methods of the examples).  Each embedded function additionally
returns the list of observable events it performs (REST calls issued,
waits, power-off), so that claims about "exactly one REST call", "never
calls Wait", or "panics with no cleanup" are statements about a computed
trace rather than about the absence of code.

Types that the fragment uses but whose definitions are outside the given
source files (`Task`, `ServerHardware`, `Scope`, `Config`, `utils.Nstring`)
are modelled from the specification, as marked on each.
-/

namespace OV

/-- Go error values: `nil` is `Option.none`, a non-nil error carries its
message. -/
abbrev Err := String

/-- Modelled from the spec: `utils.Nstring` (a nullable-string wrapper used
for URI-valued fields) is outside this fragment; the fragment only compares
it with `""` and concatenates it, so it is modelled as a plain string, with
the Go zero value / JSON null both reading as `""`. -/
abbrev Nstring := String

/-- Firmware additional properties introduced in 200 (source: `FirmwareOptionv200`). -/
structure FirmwareOptionv200 where
  FirmwareInstallType : String := ""
deriving DecidableEq, Repr

/-- Firmware option (source: `FirmwareOption`, which embeds `FirmwareOptionv200`). -/
structure FirmwareOption extends FirmwareOptionv200 where
  ForceInstallFirmware : Bool := false
  FirmwareBaselineUri : Nstring := ""
  ManageFirmware : Bool := false
deriving DecidableEq, Repr

/-- Boot mode option (source: `BootModeOption`). -/
structure BootModeOption where
  ManageMode : Bool := false
  Mode : String := ""
  PXEBootPolicy : Nstring := ""
deriving DecidableEq, Repr

/-- Boot management (source: `BootManagement`). -/
structure BootManagement where
  ManageBoot : Bool := false
  Order : List String := []
deriving DecidableEq, Repr

/-- Bios settings entry (source: `BiosSettings`). -/
structure BiosSettings where
  ID : String := ""
  Value : String := ""
deriving DecidableEq, Repr

/-- Bios options (source: `BiosOption`). -/
structure BiosOption where
  ManageBios : Bool := false
  OverriddenSettings : List BiosSettings := []
deriving DecidableEq, Repr

/-- The `Connection` type is defined outside the given source files; the
fragment only stores connections and copies them element-wise with their
`Clone` method, so the type is modelled as an opaque record and its `Clone`
is a parameter wherever it is used. -/
structure Connection where
  payload : String := ""
deriving DecidableEq, Repr

/-- The `LocalStorageOptions` type is outside the given source files;
modelled as an opaque record, its `Clone` a parameter. -/
structure LocalStorageOptions where
  payload : String := ""
deriving DecidableEq, Repr

/-- The `SanStorageOptions` type is outside the given source files;
modelled as an opaque record, its `Clone` a parameter. -/
structure SanStorageOptions where
  payload : String := ""
deriving DecidableEq, Repr

/-- `ServerProfile`, the server profile object for ov.  Field for field the
struct of the source; every default is the Go zero value of the field, so
`{}` is Go's zero `ServerProfile`.  The Go field `Type` is a Lean keyword
and is rendered `type_`. -/
structure ServerProfile where
  Affinity : String := ""
  AssociatedServer : Nstring := ""
  Bios : BiosOption := {}
  Boot : BootManagement := {}
  BootMode : BootModeOption := {}
  Category : String := ""
  Connections : List Connection := []
  Description : String := ""
  Created : String := ""
  ETAG : String := ""
  EnclosureBay : Int := 0
  EnclosureGroupURI : Nstring := ""
  EnclosureURI : Nstring := ""
  Firmware : FirmwareOption := {}
  HideUnusedFlexNics : Bool := false
  InProgress : Bool := false
  LocalStorage : LocalStorageOptions := {}
  MACType : String := ""
  Modified : String := ""
  Name : String := ""
  SanStorage : SanStorageOptions := {}
  SerialNumber : Nstring := ""
  SerialNumberType : String := ""
  ServerHardwareTypeURI : Nstring := ""
  ServerHardwareURI : Nstring := ""
  State : String := ""
  Status : String := ""
  TaskURI : Nstring := ""
  type_ : String := ""
  URI : Nstring := ""
  UUID : Nstring := ""
  WWNType : String := ""
deriving DecidableEq, Repr

/-- Go's zero value of `ServerProfile` (what `var profile ServerProfile`
declares). -/
def ServerProfile.goZero : ServerProfile := {}

/-- Clone server profile (source: `ServerProfile.Clone`).  The struct
literal of the source sets exactly the fields below; every omitted field is
the Go zero value.  `Connections` is rebuilt by appending `c.Clone()` for
each element, i.e. an element-wise map; the clone methods of `Connection`,
`LocalStorageOptions` and `SanStorageOptions` live outside this fragment and
are taken as parameters. -/
def ServerProfile.Clone (connClone : Connection → Connection)
    (lsClone : LocalStorageOptions → LocalStorageOptions)
    (ssClone : SanStorageOptions → SanStorageOptions)
    (s : ServerProfile) : ServerProfile :=
  { Affinity := s.Affinity
    Bios := s.Bios
    Boot := s.Boot
    BootMode := s.BootMode
    Connections := s.Connections.map connClone
    Description := s.Description
    EnclosureBay := s.EnclosureBay
    EnclosureGroupURI := s.EnclosureGroupURI
    EnclosureURI := s.EnclosureURI
    Firmware := s.Firmware
    HideUnusedFlexNics := s.HideUnusedFlexNics
    LocalStorage := lsClone s.LocalStorage
    MACType := s.MACType
    Name := s.Name
    SanStorage := ssClone s.SanStorage
    SerialNumberType := s.SerialNumberType
    type_ := s.type_
    WWNType := s.WWNType }

/-- `ServerProfileList`, a list of ServerProfile objects (source:
`ServerProfileList`); defaults are the Go zero values. -/
structure ServerProfileList where
  Total : Int := 0
  Count : Int := 0
  Start : Int := 0
  PrevPageURI : Nstring := ""
  NextPageURI : Nstring := ""
  URI : Nstring := ""
  Members : List ServerProfile := []
deriving DecidableEq, Repr

/-- Go's zero value of `ServerProfileList`. -/
def ServerProfileList.goZero : ServerProfileList := {}

/-- Modelled from the spec: the `Task` type (the asynchronous task handle)
is outside the given source files.  Per the spec the handle carries an
explicit "done" flag so repeated waits are idempotent; only that flag and
the task URI are observable in this fragment. -/
structure Task where
  TaskIsDone : Bool := false
  URI : Nstring := ""
deriving DecidableEq, Repr

/-- Modelled from the spec: `NewProfileTask` builds a fresh (not-done) task
handle bound to the client; the client plays no observable role here. -/
def Task.NewProfileTask : Task := {}

/-- Modelled from the spec: `ResetTask` clears the handle back to the
not-done state before a new submission. -/
def Task.ResetTask (t : Task) : Task := { t with TaskIsDone := false }

/-- Modelled from the spec: `ServerHardware` is an appliance resource record
outside the given source files; the fragment reads only its `Name` and
`URI`. -/
structure ServerHardware where
  Name : String := ""
  URI : Nstring := ""
deriving DecidableEq, Repr

/-- Go's zero value of `ServerHardware` (what `var server ServerHardware`
declares). -/
def ServerHardware.goZero : ServerHardware := {}

/-- REST methods the fragment uses. -/
inductive RestMethod where
  | GET
  | POST
  | DELETE
  | PUT
deriving DecidableEq, Repr

/-- Observable events of a profile operation: the REST calls it issues
(method, uri, query string, request body), the `Task.Wait` calls it makes,
and `ServerHardware.PowerOff`. -/
inductive Event where
  | rest (m : RestMethod) (uri : String) (query : List (String × String))
      (body : Option ServerProfile)
  | wait (t : Task)
  | powerOff
deriving DecidableEq, Repr

/-- Whether an event is a REST call. -/
def Event.isRest : Event → Bool
  | Event.rest _ _ _ _ => true
  | _ => false

/-- Whether an event is a REST call with the given method. -/
def Event.isRestMethod (m : RestMethod) : Event → Bool
  | Event.rest m2 _ _ _ => m2 = m
  | _ => false

/-- Whether an event is a `Task.Wait` call. -/
def Event.isWait : Event → Bool
  | Event.wait _ => true
  | _ => false

/-- The environment of the profile operations: outcomes of every external
collaborator the fragment calls.  `restResult` is what `RestAPICall` returns
for a method and uri; `unmarshalProfiles` and `unmarshalTask` are what
`json.Unmarshal` leaves in the target buffer together with its error
(`unmarshalTask` also receives the task the data is unmarshalled into);
`getServerHardware` is the SDK method `OVClient.GetServerHardware`;
`waitResult` is the outcome of polling a not-yet-done task to its terminal
state; the three clone functions are the `Clone` methods defined outside
this fragment. -/
structure ProfileEnv where
  restResult : RestMethod → String → Except Err String
  unmarshalProfiles : String → ServerProfileList × Option Err
  unmarshalTask : String → Task → Task × Option Err
  getServerHardware : Nstring → ServerHardware × Option Err
  waitResult : Task → Option Err
  connClone : Connection → Connection
  lsClone : LocalStorageOptions → LocalStorageOptions
  ssClone : SanStorageOptions → SanStorageOptions

/-- Modelled from the spec: `Task.Wait` polls the remote status endpoint
until the task is terminal and is idempotent through the done flag — a
handle already marked done returns immediately with no error; otherwise the
outcome is the environment's. -/
def TaskWait (env : ProfileEnv) (t : Task) : Option Err :=
  if t.TaskIsDone then none else env.waitResult t

/-- Get server profiles (source: `OVClient.GetProfiles`).  Builds the query
from the non-empty filter and sort, issues one GET on
`/rest/server-profiles`, returns the zero list on transport error and the
unmarshal buffer with its error otherwise.  `RefreshLogin` and the auth
header setup are external and have no observable effect here. -/
def profileQuery (filter : String) (sort : String) : List (String × String) :=
  (if filter ≠ "" then [("filter", filter)] else []) ++
    (if sort ≠ "" then [("sort", sort)] else [])

def GetProfiles (env : ProfileEnv) (filter : String) (sort : String) :
    (ServerProfileList × Option Err) × List Event :=
  let uri := "/rest/server-profiles"
  let q := profileQuery filter sort
  let res :=
    match env.restResult RestMethod.GET uri with
    | Except.error e => (ServerProfileList.goZero, some e)
    | Except.ok data =>
      match env.unmarshalProfiles data with
      | (profiles, some e) => (profiles, some e)
      | (profiles, none) => (profiles, none)
  (res, [Event.rest RestMethod.GET uri q none])

/-- Get a server profile by name (source: `OVClient.GetProfileByName`).
The Go returns `profiles.Members[0]` whenever `profiles.Total > 0`; an
out-of-range index (a non-empty `Total` with an empty `Members`) is a Go
runtime panic, encoded as the `none` result. -/
def GetProfileByName (env : ProfileEnv) (name : String) :
    Option (ServerProfile × Option Err) × List Event :=
  let r := GetProfiles env ("name matches \x27" ++ name ++ "\x27") "name:asc"
  let profiles := r.1.1
  let err := r.1.2
  if profiles.Total > 0 then
    (profiles.Members.head?.map (fun m => (m, err)), r.2)
  else
    (some (ServerProfile.goZero, err), r.2)

/-- Get a server profile by serial number (source: `OVClient.GetProfileBySN`);
same shape as `GetProfileByName` with the serial-number filter. -/
def GetProfileBySN (env : ProfileEnv) (serialnum : String) :
    Option (ServerProfile × Option Err) × List Event :=
  let r := GetProfiles env ("serialNumber matches \x27" ++ serialnum ++ "\x27") "name:asc"
  let profiles := r.1.1
  let err := r.1.2
  if profiles.Total > 0 then
    (profiles.Members.head?.map (fun m => (m, err)), r.2)
  else
    (some (ServerProfile.goZero, err), r.2)

/-- Submit new profile (source: `OVClient.SubmitNewProfile`).  One POST of
the whole profile to `/rest/server-profiles`; on transport or unmarshal
error the task is marked done and the error returned with it.  The single
REST call is the trace in every branch. -/
def SubmitNewProfile (env : ProfileEnv) (p : ServerProfile) :
    (Task × Option Err) × List Event :=
  let uri := "/rest/server-profiles"
  let t := Task.ResetTask Task.NewProfileTask
  let res :=
    match env.restResult RestMethod.POST uri with
    | Except.error e => ({ t with TaskIsDone := true }, some e)
    | Except.ok data =>
      match env.unmarshalTask data t with
      | (t2, some e) => ({ t2 with TaskIsDone := true }, some e)
      | (t2, none) => (t2, none)
  (res, [Event.rest RestMethod.POST uri [] (some p)])

/-- Create profile from template (source:
`OVClient.CreateProfileFromTemplate`).  Clones the template, sets the blade
URI, appends the name to the description, sets the name, submits, and then
waits: the submit error is overwritten by `err = t.Wait()`, so the returned
error is exactly the wait outcome.  The template argument is a Go value
parameter and `Clone` has a value receiver, so the caller's template is
never mutated — the embedding is accordingly pure in `template`. -/
def CreateProfileFromTemplate (env : ProfileEnv) (name : String)
    (template : ServerProfile) (blade : ServerHardware) :
    Option Err × List Event :=
  let new_template := template.Clone env.connClone env.lsClone env.ssClone
  let new_template := { new_template with
    ServerHardwareURI := blade.URI
    Description := new_template.Description ++ " " ++ name
    Name := name }
  let r := SubmitNewProfile env new_template
  let t := r.1.1
  (TaskWait env t, r.2 ++ [Event.wait t])

/-- Submit delete profile (source: `OVClient.SubmitDeleteProfile`).  With an
empty profile URI no REST call is made and the done task is returned with a
nil error; otherwise one DELETE on the profile URI, with the same
error-marking as submission. -/
def SubmitDeleteProfile (env : ProfileEnv) (p : ServerProfile) :
    (Task × Option Err) × List Event :=
  let uri := p.URI
  let t := Task.ResetTask Task.NewProfileTask
  if uri = "" then
    (({ t with TaskIsDone := true }, none), [])
  else
    let res :=
      match env.restResult RestMethod.DELETE uri with
      | Except.error e => ({ t with TaskIsDone := true }, some e)
      | Except.ok data =>
        match env.unmarshalTask data t with
        | (t2, some e) => ({ t2 with TaskIsDone := true }, some e)
        | (t2, none) => (t2, none)
    (res, [Event.rest RestMethod.DELETE uri [] none])

/-- Delete a profile (source: `OVClient.DeleteProfile`).  Looks the profile
up by name (propagating that error, and the potential index panic as
`none`); when a profile with a non-empty name is found, optionally resolves
its server hardware (the lookup error is only logged), powers the server off
when its name is non-empty, submits the delete, and waits — the submit error
is overwritten by `err = t.Wait()`, and the function returns the wait
outcome; when no profile is found it returns nil having done nothing. -/
def DeleteProfile (env : ProfileEnv) (name : String) :
    Option (Option Err) × List Event :=
  let r := GetProfileByName env name
  match r.1 with
  | none => (none, r.2)
  | some (_profile, some e) => (some (some e), r.2)
  | some (profile, none) =>
    if profile.Name ≠ "" then
      let shr :=
        if profile.ServerHardwareURI ≠ "" then
          env.getServerHardware profile.ServerHardwareURI
        else (ServerHardware.goZero, none)
      let server := shr.1
      let powerEvs := if server.Name ≠ "" then [Event.powerOff] else []
      let sr := SubmitDeleteProfile env profile
      let t := sr.1.1
      (some (TaskWait env t), r.2 ++ powerEvs ++ sr.2 ++ [Event.wait t])
    else
      (some none, r.2)

/-! ## The example programs

`examples/scope.go` is embedded whole as a trace of observable events over
an environment supplying the outcome of each SDK call, in the order the
source makes them.  For the other two examples only the client construction
matters to the claims, so only that prefix is embedded. -/

/-- The argument tuple an example passes to `NewOVClient` (user, password,
domain, endpoint, sslVerify, apiVersion, ifMatch); `NewOVClient` itself is
outside the given source files. -/
structure OVClientArgs where
  user : String := ""
  password : String := ""
  domain : String := ""
  endpoint : String := ""
  sslVerify : Bool := false
  apiVersion : Int := 0
  ifMatch : String := ""
deriving DecidableEq, Repr

/-- Modelled from the spec: the JSON config file `oneview_config.json` with
fields `UserName`, `Password`, `Domain`, `Endpoint`, `SSlVerify`,
`ApiVersion`, `IfMatch` (`ov.Config` / `ov.LoadConfigFile` are outside the
given source files). -/
structure Config where
  UserName : String := ""
  Password : String := ""
  Domain : String := ""
  Endpoint : String := ""
  SSlVerify : Bool := false
  ApiVersion : Int := 0
  IfMatch : String := ""
deriving DecidableEq, Repr

/-- Go `strconv.Atoi` with its error discarded, as the scope/ethernet demo
uses it (`apiversion, _ := strconv.Atoi(...)`): the parsed integer, `0` when
the string does not parse. -/
def goAtoi (s : String) : Int := (s.toInt?).getD 0

/-- Modelled from the spec: `ov.Scope`, a OneView grouping construct; the
examples read and set its `Name`, `Description`, `Type` (rendered `type_`),
`URI`, `InitialScopeUris` and `AddedResourceUris`. -/
structure Scope where
  Name : String := ""
  Description : String := ""
  type_ : String := ""
  URI : Nstring := ""
  InitialScopeUris : List Nstring := []
  AddedResourceUris : List Nstring := []
deriving DecidableEq, Repr

/-- Modelled from the spec: the scope list an SDK `GetScopes` call returns;
the example only iterates its `Members`. -/
structure ScopeList where
  Members : List Scope := []
deriving DecidableEq, Repr

/-- Observable events of `examples/scope.go`: the client construction, each
`fmt.Println` (of a literal, of an error, of a message followed by an error
value, of a scope value), and `panic`. -/
inductive ScopeEv where
  | newClient (args : OVClientArgs)
  | println (s : String)
  | printlnErr (e : String)
  | printlnMsgErr (msg : String) (e : String)
  | printlnScope (sc : Scope)
  | panicked (e : String)
deriving DecidableEq, Repr

/-- Whether a scope-example event is a `panic`. -/
def ScopeEv.isPanicked : ScopeEv → Bool
  | ScopeEv.panicked _ => true
  | _ => false

/-- How `fmt.Println` renders an error value: its message, `<nil>` for a nil
error. -/
def errText : Option Err → String
  | some e => e
  | none => "<nil>"

/-- What `fmt.Println(err)` emits: nothing when the guarding `err != nil`
check failed, the error when it held. -/
def errPrint : Option Err → List ScopeEv
  | some e => [ScopeEv.printlnErr e]
  | none => []

/-- The environment of `examples/scope.go`: the OS environment and the
outcome of each SDK call of `main`, in source order (`GetScopeByName
"updated-SD2"`, the first `GetScopes`, `CreateScope`, `GetScopeByName
"new-scope"`, `UpdateScope`, the second `GetScopes`, `DeleteScope
"update-scope"`, the third `GetScopes`). -/
structure ScopeEnv where
  env : String → String
  getScopeByName1 : Scope × Option Err
  getScopes1 : ScopeList × Option Err
  createScope : Scope → Option Err
  getScopeByName2 : Scope × Option Err
  updateScope : Scope → Option Err
  getScopes2 : ScopeList × Option Err
  deleteScope : Option Err
  getScopes3 : ScopeList × Option Err

/-- The `NewOVClient` arguments of `examples/scope.go` (lines 17-24): the
four `ONEVIEW_OV_*` environment variables, `false`, the literal `800`,
`"*"`. -/
def scopeClientArgs (env : String → String) : OVClientArgs :=
  { user := env "ONEVIEW_OV_USER"
    password := env "ONEVIEW_OV_PASSWORD"
    domain := env "ONEVIEW_OV_DOMAIN"
    endpoint := env "ONEVIEW_OV_ENDPOINT"
    sslVerify := false
    apiVersion := 800
    ifMatch := "*" }

/-- The `NewOVClient` arguments of the scope/ethernet demo (its lines
20-29): the four `ONEVIEW_OV_*` environment variables, `false`,
`strconv.Atoi` of `ONEVIEW_APIVERSION` with the error discarded, `"*"`. -/
def scopeDemoClientArgs (env : String → String) : OVClientArgs :=
  { user := env "ONEVIEW_OV_USER"
    password := env "ONEVIEW_OV_PASSWORD"
    domain := env "ONEVIEW_OV_DOMAIN"
    endpoint := env "ONEVIEW_OV_ENDPOINT"
    sslVerify := false
    apiVersion := goAtoi (env "ONEVIEW_APIVERSION")
    ifMatch := "*" }

/-- The `NewOVClient` arguments of `examples/fc_config.go` (lines 22-29):
the fields of the config loaded from `oneview_config.json`, in order. -/
def fcClientArgs (config : Config) : OVClientArgs :=
  { user := config.UserName
    password := config.Password
    domain := config.Domain
    endpoint := config.Endpoint
    sslVerify := config.SSlVerify
    apiVersion := config.ApiVersion
    ifMatch := config.IfMatch }

/-- The scope record `examples/scope.go` builds and passes to `CreateScope`
(line 44, with the two literal URIs of lines 42-43). -/
def newScopeRecord : Scope :=
  { Name := "new-scope"
    Description := "Test from script"
    type_ := "ScopeV3"
    InitialScopeUris := ["/rest/scopes/7f658031-c942-4336-be7a-67957cf20ba2"]
    AddedResourceUris := ["/rest/ethernet-networks/6d0f7c41-9d1d-4de4-92ef-21a15bb0e8d0"] }

/-- `examples/scope.go` lines 26-31: the Scope-by-Name header, the error
print when `GetScopeByName` failed, the print of the scope value. -/
def scopeSeg1 (E : ScopeEnv) : List ScopeEv :=
  ScopeEv.println "#................... Scope by Name ...............#" ::
    (errPrint E.getScopeByName1.2 ++ [ScopeEv.printlnScope E.getScopeByName1.1])

/-- `examples/scope.go` lines 33-41: the first `GetScopes`, its error print,
the list header, one name print per member. -/
def scopeSeg2 (E : ScopeEnv) : List ScopeEv :=
  errPrint E.getScopes1.2 ++
    (ScopeEv.println "# ................... Scopes List .................#" ::
      E.getScopes1.1.Members.map (fun m => ScopeEv.println m.Name))

/-- `examples/scope.go` lines 46-51: `CreateScope` and its check.  The
failure branch tests `er` (the `CreateScope` error) but prints `err` — the
variable still holding the outcome of the first `GetScopes` — so the
`CreateScope` error itself is never printed. -/
def scopeSeg3 (E : ScopeEnv) : List ScopeEv :=
  match E.createScope newScopeRecord with
  | some _ =>
    [ScopeEv.printlnMsgErr "............... Scope Creation Failed:" (errText E.getScopes1.2)]
  | none => [ScopeEv.println "# ................... Scope Created Successfully.................#"]

/-- `examples/scope.go` lines 78-85: the third `GetScopes`, its error print,
the list header, one name print per member. -/
def scopeSeg6 (E : ScopeEnv) : List ScopeEv :=
  errPrint E.getScopes3.2 ++
    (ScopeEv.println "# ................... Scopes List .................#" ::
      E.getScopes3.1.Members.map (fun m => ScopeEv.println m.Name))

/-- `examples/scope.go` lines 67-85: the second `GetScopes` — whose error is
assigned to `err` but never checked — the member-name prints, then
`DeleteScope`, which panics on error (ending the program, no cleanup) and on
success prints the deleted banner and runs the final listing. -/
def scopeSeg5 (E : ScopeEnv) : List ScopeEv :=
  (E.getScopes2.1.Members.map (fun m => ScopeEv.println m.Name)) ++
    match E.deleteScope with
    | some e => [ScopeEv.panicked e]
    | none =>
      ScopeEv.println "#...................... Deleted Scope Successfully .....#" :: scopeSeg6 E

/-- `examples/scope.go` lines 53-66: `GetScopeByName "new-scope"`; on error
the error is printed and the update skipped; otherwise the renamed scope is
passed to `UpdateScope`, which on error prints the failed banner and panics
(ending the program, no cleanup) and on success prints the updated banner;
the program then continues with `scopeSeg5`. -/
def scopeSeg4 (E : ScopeEnv) : List ScopeEv :=
  match E.getScopeByName2.2 with
  | some e => ScopeEv.printlnErr e :: scopeSeg5 E
  | none =>
    match E.updateScope { E.getScopeByName2.1 with Name := "update-scope" } with
    | some e =>
      [ScopeEv.println "#.................... Scope Updation failed ...........#",
        ScopeEv.panicked e]
    | none => ScopeEv.println "#.................... Scope after Updating ...........#" :: scopeSeg5 E

/-- `examples/scope.go`, `main`: the client construction followed by the
five segments above. -/
def scopeMain (E : ScopeEnv) : List ScopeEv :=
  ScopeEv.newClient (scopeClientArgs E.env) ::
    (scopeSeg1 E ++ scopeSeg2 E ++ scopeSeg3 E ++ scopeSeg4 E)

/-! ## Concrete instances used by the witnesses and the counterexample -/

/-- A found profile used by the witnesses: non-empty name, a profile URI. -/
def witnessProfile : ServerProfile :=
  { Name := "p1", URI := "/rest/server-profiles/p1" }

/-- A found profile with an empty URI (its deletion skips the REST call). -/
def witnessProfileNoURI : ServerProfile := { Name := "p1" }

/-- A profile environment whose transport succeeds, whose profile list holds
exactly `witnessProfile`, and whose wait fails with `task failed`. -/
def witnessEnv : ProfileEnv :=
  { restResult := fun _ _ => Except.ok "d"
    unmarshalProfiles := fun _ => ({ Total := 1, Members := [witnessProfile] }, none)
    unmarshalTask := fun _ t => (t, none)
    getServerHardware := fun _ => ({}, none)
    waitResult := fun _ => some "task failed"
    connClone := id, lsClone := id, ssClone := id }

/-- Like `witnessEnv` but the profile list holds `witnessProfileNoURI`. -/
def witnessEnvNoURI : ProfileEnv :=
  { restResult := fun _ _ => Except.ok "d"
    unmarshalProfiles := fun _ => ({ Total := 1, Members := [witnessProfileNoURI] }, none)
    unmarshalTask := fun _ t => (t, none)
    getServerHardware := fun _ => ({}, none)
    waitResult := fun _ => some "task failed"
    connClone := id, lsClone := id, ssClone := id }

/-- A scope-example environment on which the stated error handling of the
example fails: the second `GetScopes` (the `up_list` call of line 67) errors
with `boom` and `CreateScope` errors with `cfail`, everything else succeeds. -/
def scopeCexEnv : ScopeEnv :=
  { env := fun _ => ""
    getScopeByName1 := ({}, none)
    getScopes1 := ({}, none)
    createScope := fun _ => some "cfail"
    getScopeByName2 := ({}, none)
    updateScope := fun _ => none
    getScopes2 := ({}, some "boom")
    deleteScope := none
    getScopes3 := ({}, none) }

/-! ## Theorems -/

/-- Claim C8: `ServerProfile.Clone` zeroes every server-assigned field
(URI, ETAG, UUID, SerialNumber, ServerHardwareURI, ServerHardwareTypeURI,
AssociatedServer, Category, Created, Modified, State, Status, TaskURI,
InProgress), copies every user-configurable field (Affinity, Bios, Boot,
BootMode, Description, EnclosureBay, EnclosureGroupURI, EnclosureURI,
Firmware, HideUnusedFlexNics, MACType, Name, SerialNumberType, Type,
WWNType), and deep-copies Connections, LocalStorage and SanStorage through
their own Clone methods; the receiver is a Go value receiver, so the clone
is pure in `s` and the receiver is unchanged. -/
theorem serverProfile_clone_field_map (connClone : Connection → Connection)
    (lsClone : LocalStorageOptions → LocalStorageOptions)
    (ssClone : SanStorageOptions → SanStorageOptions) (s : ServerProfile) :
    let r := s.Clone connClone lsClone ssClone
    (r.URI = "" ∧ r.ETAG = "" ∧ r.UUID = "" ∧ r.SerialNumber = "" ∧
      r.ServerHardwareURI = "" ∧ r.ServerHardwareTypeURI = "" ∧
      r.AssociatedServer = "" ∧ r.Category = "" ∧ r.Created = "" ∧
      r.Modified = "" ∧ r.State = "" ∧ r.Status = "" ∧ r.TaskURI = "" ∧
      r.InProgress = false) ∧
    (r.Affinity = s.Affinity ∧ r.Bios = s.Bios ∧ r.Boot = s.Boot ∧
      r.BootMode = s.BootMode ∧ r.Description = s.Description ∧
      r.EnclosureBay = s.EnclosureBay ∧
      r.EnclosureGroupURI = s.EnclosureGroupURI ∧
      r.EnclosureURI = s.EnclosureURI ∧ r.Firmware = s.Firmware ∧
      r.HideUnusedFlexNics = s.HideUnusedFlexNics ∧ r.MACType = s.MACType ∧
      r.Name = s.Name ∧ r.SerialNumberType = s.SerialNumberType ∧
      r.type_ = s.type_ ∧ r.WWNType = s.WWNType) ∧
    (r.Connections = s.Connections.map connClone ∧
      r.LocalStorage = lsClone s.LocalStorage ∧
      r.SanStorage = ssClone s.SanStorage) :=
  ⟨⟨rfl, rfl, rfl, rfl, rfl, rfl, rfl, rfl, rfl, rfl, rfl, rfl, rfl, rfl⟩,
    ⟨rfl, rfl, rfl, rfl, rfl, rfl, rfl, rfl, rfl, rfl, rfl, rfl, rfl, rfl, rfl⟩,
    ⟨rfl, rfl, rfl⟩⟩

/-- Claim C2: the submit functions issue the mutating operation as a single
REST call and return without blocking: the trace of `SubmitNewProfile` is
exactly the one POST of the profile to `/rest/server-profiles`, the trace of
`SubmitDeleteProfile` with a non-empty profile URI is exactly the one DELETE
of that URI, and neither trace contains a `Task.Wait` (or indeed any other
event). -/
theorem submit_single_rest_call_no_wait (env : ProfileEnv) (p : ServerProfile) :
    (SubmitNewProfile env p).2 =
      [Event.rest RestMethod.POST "/rest/server-profiles" [] (some p)] ∧
    (p.URI ≠ "" →
      (SubmitDeleteProfile env p).2 = [Event.rest RestMethod.DELETE p.URI [] none]) ∧
    (SubmitNewProfile env p).2.filter Event.isWait = [] ∧
    (SubmitDeleteProfile env p).2.filter Event.isWait = [] := by
  refine ⟨rfl, fun h => ?_, rfl, ?_⟩
  · simp only [SubmitDeleteProfile, if_neg h]
  · by_cases h : p.URI = "" <;>
      simp [SubmitDeleteProfile, h, Event.isWait, List.filter]

/-- Claim C2 at a concrete input: the witness instantiates the theorem for a
profile with URI `/rest/server-profiles/x` and an environment whose
transport always succeeds. -/
theorem submit_single_rest_call_no_wait_witness :
    (SubmitDeleteProfile
        { restResult := fun _ _ => Except.ok ""
          unmarshalProfiles := fun _ => ({}, none)
          unmarshalTask := fun _ t => (t, none)
          getServerHardware := fun _ => ({}, none)
          waitResult := fun _ => none
          connClone := id, lsClone := id, ssClone := id }
        { ServerProfile.goZero with URI := "/rest/server-profiles/x" }).2 =
      [Event.rest RestMethod.DELETE "/rest/server-profiles/x" [] none] :=
  (submit_single_rest_call_no_wait _ _).2.1 (by decide)

/-- Claim C3: a transport error during submission is returned to the caller
immediately and without retry — each submit function's trace holds at most
one REST call, and when `RestAPICall` fails its error is the error the
function returns. -/
theorem submit_transport_error_returned_no_retry (env : ProfileEnv) (p : ServerProfile) :
    ((SubmitNewProfile env p).2.filter Event.isRest).length ≤ 1 ∧
    ((SubmitDeleteProfile env p).2.filter Event.isRest).length ≤ 1 ∧
    (∀ e, env.restResult RestMethod.POST "/rest/server-profiles" = Except.error e →
      (SubmitNewProfile env p).1.2 = some e) ∧
    (∀ e, p.URI ≠ "" → env.restResult RestMethod.DELETE p.URI = Except.error e →
      (SubmitDeleteProfile env p).1.2 = some e) := by
  refine ⟨by simp [SubmitNewProfile, Event.isRest], ?_, fun e h => ?_, fun e hu h => ?_⟩
  · by_cases h : p.URI = "" <;> simp [SubmitDeleteProfile, h, Event.isRest]
  · simp [SubmitNewProfile, h]
  · simp [SubmitDeleteProfile, hu, h]

/-- Claim C3 at a concrete input: an environment whose transport fails with
`connection refused` makes `SubmitNewProfile` return exactly that error. -/
theorem submit_transport_error_returned_no_retry_witness :
    (SubmitNewProfile
        { restResult := fun _ _ => Except.error "connection refused"
          unmarshalProfiles := fun _ => ({}, none)
          unmarshalTask := fun _ t => (t, none)
          getServerHardware := fun _ => ({}, none)
          waitResult := fun _ => none
          connClone := id, lsClone := id, ssClone := id }
        ServerProfile.goZero).1.2 = some "connection refused" :=
  (submit_transport_error_returned_no_retry _ _).2.2.1 "connection refused" rfl

/-- Claim C4: on every return path of the submit functions that does not
produce a successfully unmarshalled task — transport error, unmarshal error,
or (for deletion) a missing profile URI — the returned handle's
`TaskIsDone` flag has been set to `true`. -/
theorem submit_failure_paths_mark_task_done (env : ProfileEnv) (p : ServerProfile) :
    (∀ e, env.restResult RestMethod.POST "/rest/server-profiles" = Except.error e →
      (SubmitNewProfile env p).1.1.TaskIsDone = true) ∧
    (∀ d, env.restResult RestMethod.POST "/rest/server-profiles" = Except.ok d →
      (env.unmarshalTask d (Task.ResetTask Task.NewProfileTask)).2.isSome →
      (SubmitNewProfile env p).1.1.TaskIsDone = true) ∧
    (p.URI = "" → (SubmitDeleteProfile env p).1.1.TaskIsDone = true) ∧
    (∀ e, env.restResult RestMethod.DELETE p.URI = Except.error e →
      (SubmitDeleteProfile env p).1.1.TaskIsDone = true) ∧
    (∀ d, env.restResult RestMethod.DELETE p.URI = Except.ok d →
      (env.unmarshalTask d (Task.ResetTask Task.NewProfileTask)).2.isSome →
      (SubmitDeleteProfile env p).1.1.TaskIsDone = true) := by
  refine ⟨fun e h => ?_, fun d h hu => ?_, fun h => ?_, fun e h => ?_, fun d h hu => ?_⟩
  · simp [SubmitNewProfile, h]
  · rcases h2 : env.unmarshalTask d (Task.ResetTask Task.NewProfileTask) with ⟨t2, e2⟩
    rw [h2] at hu
    cases e2 with
    | none => simp at hu
    | some e => simp [SubmitNewProfile, h, h2]
  · simp [SubmitDeleteProfile, h]
  · by_cases hu : p.URI = ""
    · simp [SubmitDeleteProfile, hu]
    · simp [SubmitDeleteProfile, hu, h]
  · by_cases huri : p.URI = ""
    · simp [SubmitDeleteProfile, huri]
    · rcases h2 : env.unmarshalTask d (Task.ResetTask Task.NewProfileTask) with ⟨t2, e2⟩
      rw [h2] at hu
      cases e2 with
      | none => simp at hu
      | some e => simp [SubmitDeleteProfile, huri, h, h2]

/-- Claim C4 at a concrete input: with a transport that fails, the task
`SubmitNewProfile` hands back is marked done. -/
theorem submit_failure_paths_mark_task_done_witness :
    (SubmitNewProfile
        { restResult := fun _ _ => Except.error "boom"
          unmarshalProfiles := fun _ => ({}, none)
          unmarshalTask := fun _ t => (t, none)
          getServerHardware := fun _ => ({}, none)
          waitResult := fun _ => none
          connClone := id, lsClone := id, ssClone := id }
        ServerProfile.goZero).1.1.TaskIsDone = true :=
  (submit_failure_paths_mark_task_done _ _).1 "boom" rfl

/-- Claim C6: `GetProfileByName` and `GetProfileBySN` return the first
member of the `GetProfiles` result whenever its `Total` is positive — the
`Members[0]` access being in bounds exactly when `Members` is non-empty, an
out-of-range access (the `none` result) occurring precisely when `Total > 0`
with an empty `Members` — and the zero-value `ServerProfile` otherwise, the
`GetProfiles` error passed through in every case. -/
theorem getProfile_by_name_sn_first_member (env : ProfileEnv)
    (name serialnum : String) :
    (let pr := (GetProfiles env ("name matches \x27" ++ name ++ "\x27") "name:asc").1;
      (pr.1.Total > 0 →
        (GetProfileByName env name).1 = pr.1.Members.head?.map (fun m => (m, pr.2))) ∧
      (¬ pr.1.Total > 0 →
        (GetProfileByName env name).1 = some (ServerProfile.goZero, pr.2)) ∧
      ((GetProfileByName env name).1 = none ↔ pr.1.Total > 0 ∧ pr.1.Members = [])) ∧
    (let pr :=
        (GetProfiles env ("serialNumber matches \x27" ++ serialnum ++ "\x27") "name:asc").1;
      (pr.1.Total > 0 →
        (GetProfileBySN env serialnum).1 = pr.1.Members.head?.map (fun m => (m, pr.2))) ∧
      (¬ pr.1.Total > 0 →
        (GetProfileBySN env serialnum).1 = some (ServerProfile.goZero, pr.2)) ∧
      ((GetProfileBySN env serialnum).1 = none ↔ pr.1.Total > 0 ∧ pr.1.Members = [])) := by
  constructor
  · refine ⟨fun h => ?_, fun h => ?_, ?_⟩
    · simp only [GetProfileByName, if_pos h]
    · simp only [GetProfileByName, if_neg h]
    · by_cases h :
        (GetProfiles env ("name matches \x27" ++ name ++ "\x27") "name:asc").1.1.Total > 0
      · simp only [GetProfileByName, if_pos h, if_true, h, true_and,
          Option.map_eq_none', List.head?_eq_none_iff]
      · simp only [GetProfileByName, if_neg h, h, false_and, iff_false]
        exact Option.some_ne_none _
  · refine ⟨fun h => ?_, fun h => ?_, ?_⟩
    · simp only [GetProfileBySN, if_pos h]
    · simp only [GetProfileBySN, if_neg h]
    · by_cases h :
        (GetProfiles env ("serialNumber matches \x27" ++ serialnum ++ "\x27")
          "name:asc").1.1.Total > 0
      · simp only [GetProfileBySN, if_pos h, if_true, h, true_and,
          Option.map_eq_none', List.head?_eq_none_iff]
      · simp only [GetProfileBySN, if_neg h, h, false_and, iff_false]
        exact Option.some_ne_none _

/-- Claim C7: profile creation pushes the whole locally built object — the
only REST call `CreateProfileFromTemplate` makes is one POST to
`/rest/server-profiles` whose body is the entire snapshot built locally: the
clone of the template with `ServerHardwareURI` set to the blade URI, the
name appended to the description, and the name set; the template is a Go
value parameter and stays unmodified (the embedding is pure in
`template`). -/
theorem createProfileFromTemplate_posts_whole_snapshot (env : ProfileEnv)
    (name : String) (template : ServerProfile) (blade : ServerHardware) :
    let clone := template.Clone env.connClone env.lsClone env.ssClone
    let nt := { clone with
      ServerHardwareURI := blade.URI
      Description := clone.Description ++ " " ++ name
      Name := name }
    (CreateProfileFromTemplate env name template blade).2.filter Event.isRest =
      [Event.rest RestMethod.POST "/rest/server-profiles" [] (some nt)] := by
  simp [CreateProfileFromTemplate, SubmitNewProfile, Event.isRest]

/-- Helper: whatever the environment returns, the trace of
`GetProfileByName` is the single GET on `/rest/server-profiles`. -/
theorem getProfileByName_trace (env : ProfileEnv) (name : String) :
    (GetProfileByName env name).2 =
      [Event.rest RestMethod.GET "/rest/server-profiles"
        (profileQuery ("name matches \x27" ++ name ++ "\x27") "name:asc") none] := by
  simp only [GetProfileByName, apply_ite Prod.snd, ite_self]
  rfl

/-- Claim C5: `SubmitDeleteProfile` on a profile with an empty URI performs
no REST call and returns the done task handle with a nil error; and
`DeleteProfile` of a found profile (non-empty name) whose URI is empty
returns nil success while its trace holds no DELETE call. -/
theorem submitDeleteProfile_empty_uri_success (env : ProfileEnv)
    (nameD : String) (profile : ServerProfile)
    (hfound : (GetProfileByName env nameD).1 = some (profile, none))
    (hname : profile.Name ≠ "") (huri : profile.URI = "") :
    ((SubmitDeleteProfile env profile).1 =
      ({ Task.ResetTask Task.NewProfileTask with TaskIsDone := true }, none) ∧
      (SubmitDeleteProfile env profile).2 = []) ∧
    (DeleteProfile env nameD).1 = some none ∧
    (DeleteProfile env nameD).2.filter (Event.isRestMethod RestMethod.DELETE) = [] := by
  have hsub : SubmitDeleteProfile env profile =
      (({ Task.ResetTask Task.NewProfileTask with TaskIsDone := true }, none), []) := by
    simp [SubmitDeleteProfile, huri]
  refine ⟨⟨by rw [hsub], by rw [hsub]⟩, ?_, ?_⟩
  · simp only [DeleteProfile, hfound]
    simp [hname, hsub, TaskWait]
  · have hq := getProfileByName_trace env nameD
    simp only [DeleteProfile, hfound]
    by_cases hs : (if profile.ServerHardwareURI ≠ "" then
        env.getServerHardware profile.ServerHardwareURI
      else (ServerHardware.goZero, none)).1.Name ≠ "" <;>
      simp [hname, hs, hsub, hq, Event.isRestMethod, List.filter_append,
        List.filter]

/-- Claim C5 at a concrete input: in `witnessEnvNoURI` the found profile has
an empty URI, the delete submission issues no event, and `DeleteProfile`
succeeds. -/
theorem submitDeleteProfile_empty_uri_success_witness :
    (SubmitDeleteProfile witnessEnvNoURI witnessProfileNoURI).2 = [] ∧
    (DeleteProfile witnessEnvNoURI "p1").1 = some none := by
  have h := submitDeleteProfile_empty_uri_success witnessEnvNoURI "p1"
    witnessProfileNoURI rfl (by decide) rfl
  exact ⟨h.1.2, h.2.1⟩

/-- Claim C1: both long-running operations gate success on `Task.Wait`.
`CreateProfileFromTemplate` waits on the task handle its submission returned
and returns exactly the wait outcome (nil only when the wait reported a
clean terminal state, the wait error otherwise — the submit error itself is
overwritten by `err = t.Wait()`); `DeleteProfile`, when a profile with the
given name exists, does the same for the delete submission. -/
theorem create_delete_profile_return_wait_outcome (env : ProfileEnv)
    (nameC nameD : String) (template : ServerProfile) (blade : ServerHardware)
    (profile : ServerProfile)
    (hfound : (GetProfileByName env nameD).1 = some (profile, none))
    (hname : profile.Name ≠ "") :
    (let clone := template.Clone env.connClone env.lsClone env.ssClone
     let nt := { clone with
        ServerHardwareURI := blade.URI
        Description := clone.Description ++ " " ++ nameC
        Name := nameC }
     let tC := (SubmitNewProfile env nt).1.1
     (CreateProfileFromTemplate env nameC template blade).1 = TaskWait env tC ∧
       Event.wait tC ∈ (CreateProfileFromTemplate env nameC template blade).2) ∧
    (let tD := (SubmitDeleteProfile env profile).1.1
     (DeleteProfile env nameD).1 = some (TaskWait env tD) ∧
       Event.wait tD ∈ (DeleteProfile env nameD).2) := by
  refine ⟨⟨rfl, by simp [CreateProfileFromTemplate]⟩, ?_, ?_⟩
  · simp only [DeleteProfile, hfound]
    simp [hname]
  · simp only [DeleteProfile, hfound]
    simp [hname]

/-- Claim C1 at a concrete input: in `witnessEnv` the wait fails with `task
failed`, and `DeleteProfile` of the found profile returns exactly that
error. -/
theorem create_delete_profile_return_wait_outcome_witness :
    (DeleteProfile witnessEnv "p1").1 = some (some "task failed") := by
  have h := (create_delete_profile_return_wait_outcome witnessEnv "x" "p1"
    ServerProfile.goZero ServerHardware.goZero witnessProfile rfl (by decide)).2
  rw [h.1]
  rfl

/-- Claim C9: each example builds its client from exactly the documented
configuration sources — the scope examples pass the values of
`ONEVIEW_OV_USER`, `ONEVIEW_OV_PASSWORD`, `ONEVIEW_OV_DOMAIN` and
`ONEVIEW_OV_ENDPOINT` to `NewOVClient` (the scope/ethernet demo, which uses
`ONEVIEW_APIVERSION`, passes it parsed as an integer), and the FC-network
example passes the `UserName`, `Password`, `Domain`, `Endpoint`,
`SSlVerify`, `ApiVersion` and `IfMatch` fields loaded from
`oneview_config.json`; `examples/scope.go` really performs its client
construction with these arguments as its first event. -/
theorem examples_client_configuration (envv : String → String) (config : Config)
    (E : ScopeEnv) :
    ((scopeClientArgs envv).user = envv "ONEVIEW_OV_USER" ∧
      (scopeClientArgs envv).password = envv "ONEVIEW_OV_PASSWORD" ∧
      (scopeClientArgs envv).domain = envv "ONEVIEW_OV_DOMAIN" ∧
      (scopeClientArgs envv).endpoint = envv "ONEVIEW_OV_ENDPOINT") ∧
    scopeDemoClientArgs envv =
      { user := envv "ONEVIEW_OV_USER"
        password := envv "ONEVIEW_OV_PASSWORD"
        domain := envv "ONEVIEW_OV_DOMAIN"
        endpoint := envv "ONEVIEW_OV_ENDPOINT"
        sslVerify := false
        apiVersion := goAtoi (envv "ONEVIEW_APIVERSION")
        ifMatch := "*" } ∧
    fcClientArgs config =
      { user := config.UserName
        password := config.Password
        domain := config.Domain
        endpoint := config.Endpoint
        sslVerify := config.SSlVerify
        apiVersion := config.ApiVersion
        ifMatch := config.IfMatch } ∧
    ScopeEv.newClient (scopeClientArgs E.env) ∈ scopeMain E :=
  ⟨⟨rfl, rfl, rfl, rfl⟩, rfl, rfl, List.mem_cons_self _ _⟩

/-- Claim C10, counterexample: on `scopeCexEnv` the `up_list` call of
`GetScopes` (line 67 of `examples/scope.go`) fails with `boom` and
`CreateScope` fails with `cfail`, yet the program's trace prints neither
error and never panics — so it is false that every SDK error is either
printed or terminates the process, and false that `CreateScope` and
`GetScopes` errors are printed. -/
theorem scope_example_error_handling_cex :
    scopeCexEnv.getScopes2.2 = some "boom" ∧
    scopeCexEnv.createScope newScopeRecord = some "cfail" ∧
    ScopeEv.printlnErr "boom" ∉ scopeMain scopeCexEnv ∧
    ScopeEv.printlnMsgErr "............... Scope Creation Failed:" "boom" ∉
      scopeMain scopeCexEnv ∧
    ScopeEv.printlnErr "cfail" ∉ scopeMain scopeCexEnv ∧
    ScopeEv.printlnMsgErr "............... Scope Creation Failed:" "cfail" ∉
      scopeMain scopeCexEnv ∧
    (scopeMain scopeCexEnv).filter ScopeEv.isPanicked = [] := by
  decide

/-- Claim C10, as amended: in `examples/scope.go`, errors from
`GetScopeByName` and from the first and third `GetScopes` calls are printed
and execution continues; a `CreateScope` error makes the example print the
creation-failed banner together with the value of the *earlier* `GetScopes`
error variable (not the `CreateScope` error) and continue; the error of the
`GetScopes` call before the update print loop is silently discarded (the
trace does not depend on it); and errors from `UpdateScope` and
`DeleteScope` terminate the program abruptly via panic, the panic being the
last event, with no cleanup or rollback. -/
theorem scope_example_error_handling_amended (E : ScopeEnv) :
    (∀ e, E.getScopeByName1.2 = some e → ScopeEv.printlnErr e ∈ scopeMain E) ∧
    (∀ e, E.getScopes1.2 = some e → ScopeEv.printlnErr e ∈ scopeMain E) ∧
    (E.createScope newScopeRecord ≠ none →
      ScopeEv.printlnMsgErr "............... Scope Creation Failed:"
        (errText E.getScopes1.2) ∈ scopeMain E) ∧
    (∀ e, E.getScopeByName2.2 = some e → ScopeEv.printlnErr e ∈ scopeMain E) ∧
    (∀ e, E.getScopeByName2.2 = none →
      E.updateScope { E.getScopeByName2.1 with Name := "update-scope" } = some e →
      ∃ pre, scopeMain E = pre ++
        [ScopeEv.println "#.................... Scope Updation failed ...........#",
          ScopeEv.panicked e]) ∧
    (∀ o, scopeMain { E with getScopes2 := (E.getScopes2.1, o) } = scopeMain E) ∧
    (∀ e, (E.getScopeByName2.2 ≠ none ∨
        E.updateScope { E.getScopeByName2.1 with Name := "update-scope" } = none) →
      E.deleteScope = some e →
      ∃ pre, scopeMain E = pre ++ [ScopeEv.panicked e]) ∧
    (∀ e, (E.getScopeByName2.2 ≠ none ∨
        E.updateScope { E.getScopeByName2.1 with Name := "update-scope" } = none) →
      E.deleteScope = none → E.getScopes3.2 = some e →
      ScopeEv.printlnErr e ∈ scopeMain E) := by
  refine ⟨fun e h => ?_, fun e h => ?_, fun h => ?_, fun e h => ?_,
    fun e h1 h2 => ?_, fun o => rfl, fun e hr hd => ?_, fun e hr hd h3 => ?_⟩
  · simp [scopeMain, scopeSeg1, errPrint, h]
  · simp [scopeMain, scopeSeg2, errPrint, h]
  · obtain ⟨e2, he2⟩ := Option.ne_none_iff_exists'.mp h
    simp [scopeMain, scopeSeg3, he2]
  · simp [scopeMain, scopeSeg4, h]
  · refine ⟨ScopeEv.newClient (scopeClientArgs E.env) ::
      (scopeSeg1 E ++ scopeSeg2 E ++ scopeSeg3 E), ?_⟩
    simp [scopeMain, scopeSeg4, h1, h2]
  · have h4 : ∃ p, scopeSeg4 E = p ++ [ScopeEv.panicked e] := by
      have h5 : ∃ p, scopeSeg5 E = p ++ [ScopeEv.panicked e] :=
        ⟨E.getScopes2.1.Members.map (fun m => ScopeEv.println m.Name),
          by simp [scopeSeg5, hd]⟩
      obtain ⟨p, hp⟩ := h5
      cases hb : E.getScopeByName2.2 with
      | some e2 => exact ⟨ScopeEv.printlnErr e2 :: p, by simp [scopeSeg4, hb, hp]⟩
      | none =>
        rcases hr with hr | hr
        · exact absurd hb hr
        · exact ⟨ScopeEv.println "#.................... Scope after Updating ...........#" :: p,
            by simp [scopeSeg4, hb, hr, hp]⟩
    obtain ⟨p4, hp4⟩ := h4
    exact ⟨ScopeEv.newClient (scopeClientArgs E.env) ::
      (scopeSeg1 E ++ scopeSeg2 E ++ scopeSeg3 E ++ p4), by simp [scopeMain, hp4]⟩
  · have h6 : ScopeEv.printlnErr e ∈ scopeSeg6 E := by simp [scopeSeg6, errPrint, h3]
    have h5 : ScopeEv.printlnErr e ∈ scopeSeg5 E := by
      simp only [scopeSeg5, hd, List.mem_append, List.mem_cons]
      exact Or.inr (Or.inr h6)
    have h4 : ScopeEv.printlnErr e ∈ scopeSeg4 E := by
      cases hb : E.getScopeByName2.2 with
      | some e2 => simp [scopeSeg4, hb, h5]
      | none =>
        rcases hr with hr | hr
        · exact absurd hb hr
        · simp [scopeSeg4, hb, hr, h5]
    simp [scopeMain, h4]

end OV
